import Mathlib

/-!
Verification development for the cadastral PDF parsing repository
(src/data_extractor.py, src/pdf_parser.py, src/table_builder.py).

The Python code is shallowly embedded: pure string manipulation becomes
Lean functions over `String`/`List Char`, Python dictionaries become
association lists (insertion order preserved, assignment updates in
place), `Optional[str]` becomes `Option String`, and the external
collaborators (the `re` engine with the patterns from the absent
`settings.py`, the PDF readers, the OCR engine) become explicit oracle
parameters or record fields, as documented at each definition.
-/

/-! ## Python string primitives -/

/-- Whitespace class shared by Python's `str.strip()` and the `\s` class of
`re.sub` in data_extractor.py.  The embedding restricts it to the ASCII
whitespace characters; both the strip and the substitution below use this
same class, which is what the normalizer claims depend on. -/
def pyIsSpace (c : Char) : Bool :=
  c = ' ' ∨ c = '\t' ∨ c = '\n' ∨ c = '\r' ∨ c = '\x0b' ∨ c = '\x0c'

/-- Drop trailing whitespace characters (the right half of `str.strip()`). -/
def stripTrail : List Char → List Char
  | [] => []
  | c :: rest =>
    match stripTrail rest with
    | [] => if pyIsSpace c then [] else [c]
    | r => c :: r

/-- Python `str.strip()` on the character list: drop leading and trailing
whitespace. -/
def stripL (l : List Char) : List Char :=
  stripTrail (l.dropWhile pyIsSpace)

/-- Python `text.strip()` at the `String` level. -/
def pyStrip (s : String) : String :=
  String.mk (stripL s.toList)

/-- Length of `text.strip()`, as used in the threshold tests of
pdf_parser.py. -/
def pyLenStrip (s : String) : Nat :=
  (stripL s.toList).length

/-- Python `re.sub(r'\s+', ' ', text)`: every maximal run of whitespace is
replaced by a single space (data_extractor.py line 51). -/
def collapseWs : List Char → List Char
  | [] => []
  | c :: rest =>
    if pyIsSpace c then ' ' :: collapseWs (rest.dropWhile pyIsSpace)
    else c :: collapseWs rest
termination_by l => l.length
decreasing_by
  · simp only [List.length_cons]
    exact Nat.lt_succ_of_le (List.dropWhile_sublist pyIsSpace).length_le
  · simp

/-- data_extractor.py `clean_text` (lines 30-53): falsy input gives `""`;
otherwise strip, then collapse whitespace runs to single spaces. -/
def clean_text (text : String) : String :=
  if text = "" then ""
  else String.mk (collapseWs (stripL text.toList))

/-- Python `str.lower()`, restricted to the character-wise lowering that
suffices for the modelled marker set. -/
def pyLower (s : String) : String :=
  String.mk (s.toList.map Char.toLower)

/-- Modelled from the spec: `EMPTY_DATA_MARKERS` lives in `settings.py`,
which is not among the sources; the spec (§4.2, glossary) describes a
fixed set of placeholder tokens "e.g. a lone dash". -/
def EMPTY_DATA_MARKERS : List String := ["-"]

/-- data_extractor.py `is_empty_marker` (lines 56-70): falsy text is a
marker; otherwise compare `text.strip().lower()` with the lowered marker
list. -/
def is_empty_marker (text : String) : Bool :=
  if text = "" then true
  else (EMPTY_DATA_MARKERS.map pyLower).contains (pyLower (pyStrip text))

/-! ## Python dictionaries as association lists -/

/-- Python `d[k] = v` on an insertion-ordered dict: update in place if the
key exists, else append. -/
def dictSet {α : Type} : List (String × α) → String → α → List (String × α)
  | [], k, v => [(k, v)]
  | (a, b) :: t, k, v => if a = k then (k, v) :: t else (a, b) :: dictSet t k v

/-- Python `d.get(k)` / `d[k]` lookup. -/
def dictGet {α : Type} : List (String × α) → String → Option α
  | [], _ => Option.none
  | (a, b) :: t, k => if a = k then some b else dictGet t k

/-- Values stored in the dictionaries the pipeline passes around: Python
`None`, strings, ints (the row number), and the nested rental dict whose
values are all strings. -/
inductive PyVal where
  | none
  | str (s : String)
  | int (n : Int)
  | dict (d : List (String × String))
  deriving DecidableEq, Repr

/-- Python `data.get(k)` where an absent key yields `None`. -/
def pyGetV (d : List (String × PyVal)) (k : String) : PyVal :=
  (dictGet d k).getD PyVal.none

/-- Python truthiness of the values above (`if data.get(...)`). -/
def pyTruthyV : PyVal → Bool
  | .none => false
  | .str s => s != ""
  | .int n => n != 0
  | .dict d => d != []

/-! ## Field extractor (data_extractor.py)

`settings.py` is not among the sources, so the REGEX_PATTERNS table is
modelled abstractly: per the spec (§4.1, §4.3) each rule pairs a pattern
with the capture group holding the result, so a rule together with the
`re` engine is a partial function from the input text to the captured
group content (two groups for the rental period, which captures both
dates in one match). -/

/-- Modelled from the spec: the REGEX_PATTERNS registry of `settings.py`
(absent from the sources), combined with `re.search`, one matcher per
field.  `none` means the pattern did not match; `some g` carries the
captured group(s) designated by the rule. -/
structure Patterns where
  cadastral_number : String → Option String
  address : String → Option String
  area : String → Option String
  owner : String → Option String
  permitted_use : String → Option String
  cadastral_cost : String → Option String
  land_category : String → Option String
  rent_type : String → Option String
  rental_period : String → Option (String × String)
  tenant : String → Option String

/-- data_extractor.py `extract_cadastral_number` (lines 77-99): falsy text
gives None, otherwise `match.group(1)` of the search is returned raw. -/
def extract_cadastral_number (P : Patterns) (text : String) : Option String :=
  if text = "" then Option.none else P.cadastral_number text

/-- data_extractor.py `extract_area` (lines 102-124): on a match the result
is `match.group(1).strip()`. -/
def extract_area (P : Patterns) (text : String) : Option String :=
  if text = "" then Option.none else (P.area text).map pyStrip

/-- data_extractor.py `extract_address` (lines 127-149): on a match the
result is `clean_text(match.group(1))`. -/
def extract_address (P : Patterns) (text : String) : Option String :=
  if text = "" then Option.none else (P.address text).map clean_text

/-- data_extractor.py `extract_owner` (lines 152-174). -/
def extract_owner (P : Patterns) (text : String) : Option String :=
  if text = "" then Option.none else (P.owner text).map clean_text

/-- data_extractor.py `extract_permitted_use` (lines 217-239). -/
def extract_permitted_use (P : Patterns) (text : String) : Option String :=
  if text = "" then Option.none else (P.permitted_use text).map clean_text

/-- data_extractor.py `extract_cadastral_cost` (lines 242-264). -/
def extract_cadastral_cost (P : Patterns) (text : String) : Option String :=
  if text = "" then Option.none else (P.cadastral_cost text).map clean_text

/-- data_extractor.py `extract_land_category` (lines 267-289). -/
def extract_land_category (P : Patterns) (text : String) : Option String :=
  if text = "" then Option.none else (P.land_category text).map clean_text

/-- The rent_type match the body of `extract_rental_info` computes: the
guard `if not text: return None` precedes every search. -/
def rentTypeRes (P : Patterns) (text : String) : Option String :=
  if text = "" then Option.none else P.rent_type text

/-- The rental_period match the body of `extract_rental_info` computes. -/
def rentalPeriodRes (P : Patterns) (text : String) : Option (String × String) :=
  if text = "" then Option.none else P.rental_period text

/-- The tenant match the body of `extract_rental_info` computes. -/
def tenantRes (P : Patterns) (text : String) : Option String :=
  if text = "" then Option.none else P.tenant text

/-- data_extractor.py `extract_rental_info` (lines 177-214): builds the
`rental_data` dict from the three independent matches, assigning
`period_start` and `period_end` together from the two groups of the single
rental_period match; returns None when the dict stayed empty. -/
def extract_rental_info (P : Patterns) (text : String) :
    Option (List (String × String)) :=
  if text = "" then Option.none
  else
    let d : List (String × String) := []
    let d := match P.rent_type text with
      | some g => dictSet d "rent_type" (clean_text g)
      | Option.none => d
    let d := match P.rental_period text with
      | some pr => dictSet (dictSet d "period_start" pr.1) "period_end" pr.2
      | Option.none => d
    let d := match P.tenant text with
      | some g => dictSet d "tenant" (clean_text g)
      | Option.none => d
    if d = [] then Option.none else some d

/-- An `Optional[str]` field value as stored in the record dict. -/
def optVal : Option String → PyVal
  | Option.none => PyVal.none
  | some s => PyVal.str s

/-- The `rental_data` value as stored in the record dict. -/
def rentVal : Option (List (String × String)) → PyVal
  | Option.none => PyVal.none
  | some d => PyVal.dict d

/-- data_extractor.py `extract_all_data` (lines 296-362): initialise all
eight keys to None, then assign each field from its extractor. -/
def extract_all_data (P : Patterns) (text : String) : List (String × PyVal) :=
  let data : List (String × PyVal) :=
    [("cadastral_number", PyVal.none), ("address", PyVal.none),
     ("area", PyVal.none), ("owner", PyVal.none),
     ("permitted_use", PyVal.none), ("cadastral_cost", PyVal.none),
     ("land_category", PyVal.none), ("rental_data", PyVal.none)]
  let data := dictSet data "cadastral_number" (optVal (extract_cadastral_number P text))
  let data := dictSet data "address" (optVal (extract_address P text))
  let data := dictSet data "area" (optVal (extract_area P text))
  let data := dictSet data "owner" (optVal (extract_owner P text))
  let data := dictSet data "permitted_use" (optVal (extract_permitted_use P text))
  let data := dictSet data "cadastral_cost" (optVal (extract_cadastral_cost P text))
  let data := dictSet data "land_category" (optVal (extract_land_category P text))
  let data := dictSet data "rental_data" (rentVal (extract_rental_info P text))
  data

/-! ## Registry-level view of one extractor (for the missing-rule claim)

data_extractor.py fetches `REGEX_PATTERNS.get('cadastral_number')` — which
is `None` when the key is absent — and passes it straight to `re.search`,
which raises `TypeError` on a `None` pattern.  This lower-level embedding
keeps the registry lookup explicit. -/

/-- The Python exception this embedding tracks. -/
inductive PyExc where
  | typeError
  deriving DecidableEq, Repr

/-- Python `re.search(pattern, text)` where `pattern` may be `None`
(`REGEX_PATTERNS.get` of a missing key): a `None` pattern raises
`TypeError`; otherwise the abstract engine decides the match and yields
the captured group 1. -/
def re_search (engine : String → String → Option String)
    (pat : Option String) (text : String) : Except PyExc (Option String) :=
  match pat with
  | Option.none => Except.error PyExc.typeError
  | some p => Except.ok (engine p text)

/-- data_extractor.py `extract_cadastral_number` (lines 87-99) with the
registry lookup kept explicit: `if not text` short-circuits before the
registry is consulted; otherwise `re.search` runs on whatever
`REGEX_PATTERNS.get('cadastral_number')` produced. -/
def extract_cadastral_number_reg (engine : String → String → Option String)
    (REGEX_PATTERNS : List (String × String)) (text : String) :
    Except PyExc (Option String) :=
  if text = "" then Except.ok Option.none
  else re_search engine (dictGet REGEX_PATTERNS "cadastral_number") text

/-! ## Acquisition strategy chain (pdf_parser.py)

The external readers are opaque collaborators; a document is modelled by
what they would yield.  `plumberPages = none` / `pypdfPages = none` model
the reader raising on open/parse (pdf_parser.py catches the pdfplumber
exception inside `extract_text_with_table_detection`, while the pypdf
`except` at line 252 leaves the local `text` unassigned).  `ocrText` is
the text the whole OCR helper `extract_text_from_pdf_images` would return
(it catches all its own exceptions and yields None). -/

/-- One pdfplumber page: its `extract_text()` (already `or ""`), its
`extract_tables()` result (tables → rows → cells, a cell may be None),
and the texts of its `chars` objects. -/
structure Page where
  text : String
  tables : List (List (List (Option String)))
  chars : List String

/-- Truthiness of an `Optional[str]` Python value (`if text:`). -/
def pyTruthyO : Option String → Bool
  | Option.none => false
  | some s => s != ""

/-- `len(text.strip())` on an `Optional[str]`; Python only evaluates it on
truthy values, and every use below sits behind the same guards as the
source, so the `none` case is never reached. -/
def pyLenStripO : Option String → Nat
  | Option.none => 0
  | some s => pyLenStrip s

/-- pdf_parser.py lines 89-117, the per-page part of
`extract_text_with_table_detection`: page text, then pipe-joined table
rows when the page's own text strips below 5 chars, then the page's raw
chars when still below 5. -/
def pageText (p : Page) : String :=
  let t0 := p.text
  let t1 :=
    if pyLenStrip t0 < 5 then
      if p.tables ≠ [] then
        t0 ++ "\n" ++ String.intercalate "\n"
          ((p.tables.flatten).map fun row =>
            String.intercalate " | " ((row.filterMap id).filter fun s => s != ""))
      else t0
    else t0
  if pyLenStrip t1 < 5 then
    if p.chars ≠ [] then t1 ++ String.join p.chars else t1
  else t1

/-- pdf_parser.py `extract_text_with_table_detection` (lines 70-132):
`none` pages = the reader raised (caught, returns None).  `text_count`
sums the stripped lengths of the raw page texts only (line 92); below 50
the joined result is still returned when its strip is non-empty
(line 125). -/
def extract_text_with_table_detection : Option (List Page) → Option String
  | Option.none => Option.none
  | some pages =>
    let text_count := (pages.map fun p => pyLenStrip p.text).sum
    let result_text := String.intercalate "\n" (pages.map pageText)
    if text_count < 50 then
      if pyStrip result_text ≠ "" then some result_text else Option.none
    else some result_text

/-- Which PDF library the import probe at pdf_parser.py lines 15-23
resolved: pdfplumber, pypdf as fallback, or neither. -/
inductive PdfLib where
  | plumber
  | pypdf
  | nolib
  deriving DecidableEq, Repr

/-- The acquisition strategies, for tracing which ones a call entered. -/
inductive Strat where
  | structured
  | plain
  | ocr
  deriving DecidableEq, Repr

/-- How a call to `extract_text_from_pdf` ends: a returned value, or the
`NameError` the source raises when the local `text` is read before any
assignment (pypdf selected and its read raised). -/
inductive POut where
  | ok (r : Option String)
  | nameError
  deriving DecidableEq, Repr

/-- Result of `extract_text_from_pdf` plus the trace of attempted
strategies. -/
structure ExtractRes where
  out : POut
  attempted : List Strat
  deriving DecidableEq, Repr

/-- The validated facts about a document and what each opaque reader
would yield for it. -/
structure PdfFile where
  pathExists : Bool
  extOk : Bool
  sizeBytes : Nat
  plumberPages : Option (List Page)
  pypdfPages : Option (List String)
  ocrText : Option String

/-- pdf_parser.py `validate_pdf_file` (lines 186-203): existence, the
extension allow-list, and the size cap in megabytes (`cap` stands for the
MAX_PDF_SIZE_MB constant of the absent settings.py). -/
def validate_pdf_file (cap : Nat) (f : PdfFile) : Bool :=
  f.pathExists && f.extOk && decide (f.sizeBytes ≤ cap * 1048576)

/-- pdf_parser.py lines 263-276, the final check: `not text or
len(text.strip()) < 5` returns None, otherwise the text. -/
def finalReturn (text : Option String) (att : List Strat) : ExtractRes :=
  if ¬ pyTruthyO text ∨ pyLenStripO text < 5 then ⟨POut.ok Option.none, att⟩
  else ⟨POut.ok text, att⟩

/-- pdf_parser.py lines 256-260, the OCR attempt: entered when `try_ocr`
and the bound text is falsy or strips below 50; a truthy OCR result is
returned as-is, otherwise `text` now holds the OCR result and control
falls to the final check. -/
def ocrStage (f : PdfFile) (try_ocr : Bool) (text : Option String)
    (att : List Strat) : ExtractRes :=
  if try_ocr ∧ (¬ pyTruthyO text ∨ pyLenStripO text < 50) then
    let t2 := f.ocrText
    if pyTruthyO t2 then ⟨POut.ok t2, att ++ [Strat.ocr]⟩
    else finalReturn t2 (att ++ [Strat.ocr])
  else finalReturn text att

/-- pdf_parser.py `extract_text_from_pdf` (lines 206-276).  With
pdfplumber (or no library) the structured attempt runs and returns early
past 50 stripped chars; the pypdf branch (line 236) is entered only when
the library probe selected pypdf — in which case a raising read leaves
`text` unassigned and the later `not text` reads raise `NameError` — or
when no library resolved, where the `from pypdf import` itself fails and
is swallowed, leaving `text` as the structured value.  OCR follows, then
the final check. -/
def extract_text_from_pdf (lib : PdfLib) (cap : Nat) (f : PdfFile)
    (try_ocr : Bool) : ExtractRes :=
  if validate_pdf_file cap f = false then ⟨POut.ok Option.none, []⟩
  else if lib = PdfLib.plumber ∨ lib = PdfLib.nolib then
    let t := extract_text_with_table_detection
      (if lib = PdfLib.plumber then f.plumberPages else Option.none)
    if pyTruthyO t ∧ 50 < pyLenStripO t then ⟨POut.ok t, [Strat.structured]⟩
    else ocrStage f try_ocr t [Strat.structured]
  else
    match f.pypdfPages with
    | Option.none => ⟨POut.nameError, [Strat.plain]⟩
    | some ps =>
      let t := String.intercalate "\n" ps
      if t ≠ "" ∧ 50 < pyLenStrip t then ⟨POut.ok (some t), [Strat.plain]⟩
      else ocrStage f try_ocr (some t) [Strat.plain]

/-! ## Row builder (table_builder.py) -/

/-- Modelled from the spec: `EXCEL_COLUMNS` lives in the absent
settings.py; the list carries at least the columns table_builder.py
names literally. -/
def EXCEL_COLUMNS : List String :=
  ["№ п/п", "Кадастр. номер ЗУ", "Адрес, комплекс", "Площадь (м²)",
   "Собственник", "Предполагаемое назначение", "Обременение (аренда)",
   "Арендатор", "PDF-источник", "Примечания и расхождения"]

/-- Python `rental.get(k)` on the rental value: the extractor stores
either None or a dict of strings here, and every access below sits behind
the truthiness guard, so only the dict case is reachable. -/
def pyValGetS : PyVal → String → Option String
  | PyVal.dict d, k => dictGet d k
  | _, _ => Option.none

/-- Truthiness of `rental.get(k)` (an `Optional[str]`). -/
def pyTruthyS (v : Option String) : Bool :=
  match v with
  | Option.none => false
  | some s => s != ""

/-- table_builder.py `create_row_from_extracted_data` (lines 37-110):
initialise every column to `""`, fill row number and source file, copy
each truthy field into its column, and flatten the rental dict into the
two rental columns. -/
def create_row_from_extracted_data (data : List (String × PyVal))
    (file_name : String) (row_number : Int) : List (String × PyVal) :=
  let row := EXCEL_COLUMNS.map fun c => (c, PyVal.str "")
  let row := dictSet row "№ п/п" (PyVal.int row_number)
  let row := dictSet row "PDF-источник" (PyVal.str file_name)
  let row := if pyTruthyV (pyGetV data "cadastral_number") then
      dictSet row "Кадастр. номер ЗУ" (pyGetV data "cadastral_number") else row
  let row := if pyTruthyV (pyGetV data "address") then
      dictSet row "Адрес, комплекс" (pyGetV data "address") else row
  let row := if pyTruthyV (pyGetV data "area") then
      dictSet row "Площадь (м²)" (pyGetV data "area") else row
  let row := if pyTruthyV (pyGetV data "owner") then
      dictSet row "Собственник" (pyGetV data "owner") else row
  let row := if pyTruthyV (pyGetV data "permitted_use") then
      dictSet row "Предполагаемое назначение" (pyGetV data "permitted_use") else row
  if pyTruthyV (pyGetV data "rental_data") then
    let rental := pyGetV data "rental_data"
    let parts : List String := []
    let parts := if pyTruthyS (pyValGetS rental "rent_type") then
        parts ++ ["Тип: " ++ (pyValGetS rental "rent_type").getD ""] else parts
    let parts := if pyTruthyS (pyValGetS rental "period_start") ∧
        pyTruthyS (pyValGetS rental "period_end") then
        parts ++ ["Период: " ++ (pyValGetS rental "period_start").getD "" ++
          " - " ++ (pyValGetS rental "period_end").getD ""] else parts
    let row := if parts ≠ [] then
        dictSet row "Обременение (аренда)" (PyVal.str (String.intercalate "; " parts))
      else row
    if pyTruthyS (pyValGetS rental "tenant") then
      dictSet row "Арендатор" (PyVal.str ((pyValGetS rental "tenant").getD ""))
    else row
  else row

/-! ## Property vocabulary and concrete fixtures for the claims -/

/-- Neither the first nor the last character is whitespace. -/
def noEdgeSpace (l : List Char) : Bool :=
  (l.head?.all fun c => !pyIsSpace c) && (l.getLast?.all fun c => !pyIsSpace c)

/-- No two consecutive characters are both whitespace. -/
def noDoubleSpace : List Char → Bool
  | [] => true
  | [_] => true
  | a :: b :: t => (!(pyIsSpace a && pyIsSpace b)) && noDoubleSpace (b :: t)

/-- A pattern table on which no rule ever matches. -/
def noMatchPatterns : Patterns where
  cadastral_number := fun _ => Option.none
  address := fun _ => Option.none
  area := fun _ => Option.none
  owner := fun _ => Option.none
  permitted_use := fun _ => Option.none
  cadastral_cost := fun _ => Option.none
  land_category := fun _ => Option.none
  rent_type := fun _ => Option.none
  rental_period := fun _ => Option.none
  tenant := fun _ => Option.none

/-- A pattern table where only the rent_type rule matches. -/
def rentOnlyPatterns : Patterns :=
  { noMatchPatterns with rent_type := fun _ => some "Аренда" }

/-- A pattern table where only the two-date rental_period rule matches. -/
def periodOnlyPatterns : Patterns :=
  { noMatchPatterns with
    rental_period := fun _ => some ("02.09.2025", "31.12.2040") }

/-- A valid document whose structured reader yields a single page of 30
non-whitespace characters: above the low 5-char floor, below the 50-char
quality threshold. -/
def pdf30 : PdfFile where
  pathExists := true
  extOk := true
  sizeBytes := 1024
  plumberPages := some [⟨"abcdefghijklmnopqrstuvwxyz0123", [], []⟩]
  pypdfPages := Option.none
  ocrText := Option.none

/-- A valid document whose structured reader yields a single page of 60
non-whitespace characters, comfortably over the quality threshold. -/
def pdf60 : PdfFile where
  pathExists := true
  extOk := true
  sizeBytes := 1024
  plumberPages :=
    some [⟨"abcdefghijklmnopqrstuvwxyz0123456789abcdefghijklmnopqrstuvw", [], []⟩]
  pypdfPages := Option.none
  ocrText := Option.none

/-- An existing, correctly-extensioned, zero-byte document: it passes
pre-flight validation, and both readers raise on it (a zero-byte file is
not a parsable PDF), so OCR yields nothing either. -/
def pdfZeroByte : PdfFile where
  pathExists := true
  extOk := true
  sizeBytes := 0
  plumberPages := Option.none
  pypdfPages := Option.none
  ocrText := Option.none

/-- A fully populated extraction record, shaped exactly like the
`extract_all_data` output (table_builder.py's own test block uses the same
shape). -/
def recordFull : List (String × PyVal) :=
  [("cadastral_number", PyVal.str "74:36:0303005:454"),
   ("address", PyVal.str "Челябинская область, г. Челябинск"),
   ("area", PyVal.str "13351 +/-40"),
   ("owner", PyVal.str "Левин Дмитрий Олегович"),
   ("permitted_use", PyVal.str "производственная деятельность"),
   ("cadastral_cost", PyVal.str "13050468.99"),
   ("land_category", PyVal.str "Земли населенных пунктов"),
   ("rental_data", PyVal.dict
     [("rent_type", "Аренда"), ("period_start", "02.09.2025"),
      ("period_end", "31.12.2040"), ("tenant", "УК ТЕХНОПАРК ЛД")])]

/-- The same record with the cadastral cost absent. -/
def recordNoCost : List (String × PyVal) :=
  [("cadastral_number", PyVal.str "74:36:0303005:454"),
   ("address", PyVal.str "Челябинская область, г. Челябинск"),
   ("area", PyVal.str "13351 +/-40"),
   ("owner", PyVal.str "Левин Дмитрий Олегович"),
   ("permitted_use", PyVal.str "производственная деятельность"),
   ("cadastral_cost", PyVal.none),
   ("land_category", PyVal.str "Земли населенных пунктов"),
   ("rental_data", PyVal.dict
     [("rent_type", "Аренда"), ("period_start", "02.09.2025"),
      ("period_end", "31.12.2040"), ("tenant", "УК ТЕХНОПАРК ЛД")])]

/-! ## Helper lemmas: dictionaries -/

theorem dictGet_dictSet {α : Type} (d : List (String × α)) (k k' : String) (v : α) :
    dictGet (dictSet d k v) k' = if k' = k then some v else dictGet d k' := by
  induction d with
  | nil =>
    by_cases h : k' = k
    · simp [dictSet, dictGet, h]
    · simp [dictSet, dictGet, h, Ne.symm h]
  | cons a t ih =>
    obtain ⟨a1, a2⟩ := a
    by_cases h1 : a1 = k
    · subst h1
      by_cases h2 : k' = a1
      · subst h2
        simp [dictSet, dictGet]
      · simp [dictSet, dictGet, h2, Ne.symm h2]
    · by_cases h2 : a1 = k'
      · subst h2
        have h3 : ¬ a1 = k := h1
        simp [dictSet, dictGet, h3, fun hh : a1 = k => h1 hh, ih, Ne.symm h3]
      · simp [dictSet, dictGet, h1, h2, ih]

theorem pyGetV_dictSet (d : List (String × PyVal)) (k k' : String) (v : PyVal) :
    pyGetV (dictSet d k v) k' = if k' = k then v else pyGetV d k' := by
  unfold pyGetV
  rw [dictGet_dictSet]
  split <;> rfl

theorem pyGetV_ite (c : Prop) [Decidable c] (r₁ r₂ : List (String × PyVal))
    (k : String) :
    pyGetV (if c then r₁ else r₂) k = if c then pyGetV r₁ k else pyGetV r₂ k := by
  split <;> rfl

/-! ## Helper lemmas: whitespace normalisation -/

theorem head?_dropWhile_false (p : Char → Bool) (l : List Char) (c : Char)
    (h : (l.dropWhile p).head? = some c) : p c = false := by
  induction l with
  | nil => simp [List.dropWhile] at h
  | cons a t ih =>
    rw [List.dropWhile_cons] at h
    cases hpa : p a with
    | true => rw [hpa] at h; simp at h; exact ih h
    | false =>
      rw [hpa] at h
      simp at h
      subst h
      exact hpa

theorem stripTrail_head (l : List Char) (c : Char)
    (h : (stripTrail l).head? = some c) : l.head? = some c := by
  induction l with
  | nil => simp [stripTrail] at h
  | cons a t ih =>
    cases hst : stripTrail t with
    | nil =>
      simp only [stripTrail, hst] at h
      cases hsp : pyIsSpace a with
      | true => rw [hsp] at h; simp at h
      | false => rw [hsp] at h; simp at h; simp [h]
    | cons x xs =>
      simp only [stripTrail, hst] at h
      simp at h ⊢
      exact h

theorem stripTrail_getLast (l : List Char) (c : Char)
    (h : (stripTrail l).getLast? = some c) : pyIsSpace c = false := by
  induction l with
  | nil => simp [stripTrail] at h
  | cons a t ih =>
    cases hst : stripTrail t with
    | nil =>
      simp only [stripTrail, hst] at h
      cases hsp : pyIsSpace a with
      | true => rw [hsp] at h; simp at h
      | false => rw [hsp] at h; simp at h; subst h; exact hsp
    | cons x xs =>
      simp only [stripTrail, hst] at h
      rw [List.getLast?_cons_cons] at h
      rw [← hst] at h
      exact ih h

theorem getLast?_cons_of_ne_nil (a : Char) (l : List Char) (h : l ≠ []) :
    (a :: l).getLast? = l.getLast? := by
  cases l with
  | nil => exact absurd rfl h
  | cons b t => exact List.getLast?_cons_cons

theorem getLast?_dropWhile (p : Char → Bool) (l : List Char) (c : Char)
    (h : l.getLast? = some c) (hc : p c = false) :
    (l.dropWhile p).getLast? = some c := by
  induction l with
  | nil => simp at h
  | cons a t ih =>
    rw [List.dropWhile_cons]
    cases hpa : p a with
    | true =>
      simp only [if_pos rfl]
      cases t with
      | nil =>
        simp at h
        subst h
        rw [hpa] at hc
        exact absurd hc (by simp)
      | cons y ys =>
        rw [List.getLast?_cons_cons] at h
        exact ih h
    | false =>
      simp only [Bool.false_eq_true, if_false]
      exact h

theorem stripL_head (l : List Char) (c : Char)
    (h : (stripL l).head? = some c) : pyIsSpace c = false :=
  head?_dropWhile_false pyIsSpace l c (stripTrail_head _ c h)

theorem stripL_getLast (l : List Char) (c : Char)
    (h : (stripL l).getLast? = some c) : pyIsSpace c = false :=
  stripTrail_getLast _ c h

theorem collapseWs_ne_nil (l : List Char) (h : l ≠ []) : collapseWs l ≠ [] := by
  cases l with
  | nil => exact absurd rfl h
  | cons c rest =>
    rw [collapseWs]
    split <;> simp

theorem collapseWs_head (c : Char) (rest : List Char) :
    (collapseWs (c :: rest)).head? = some (if pyIsSpace c then ' ' else c) := by
  rw [collapseWs]
  split <;> simp [*]

theorem noDoubleSpace_cons (a : Char) (l : List Char)
    (h1 : noDoubleSpace l = true)
    (h2 : ∀ b, l.head? = some b → (pyIsSpace a && pyIsSpace b) = false) :
    noDoubleSpace (a :: l) = true := by
  cases l with
  | nil => rfl
  | cons b t =>
    rw [noDoubleSpace]
    simp only [Bool.and_eq_true]
    exact ⟨by simp [h2 b rfl], h1⟩

theorem noDoubleSpace_tail (a : Char) (l : List Char)
    (h : noDoubleSpace (a :: l) = true) : noDoubleSpace l = true := by
  cases l with
  | nil => rfl
  | cons b t =>
    rw [noDoubleSpace] at h
    simp only [Bool.and_eq_true] at h
    exact h.2

theorem noDoubleSpace_head (a : Char) (l : List Char)
    (h : noDoubleSpace (a :: l) = true) (ha : pyIsSpace a = true)
    (b : Char) (hb : l.head? = some b) : pyIsSpace b = false := by
  cases l with
  | nil => simp at hb
  | cons b0 t =>
    simp at hb
    subst hb
    rw [noDoubleSpace] at h
    simp only [Bool.and_eq_true] at h
    have := h.1
    rw [ha] at this
    simpa using this

theorem collapseWs_chain (l : List Char) : noDoubleSpace (collapseWs l) = true := by
  induction l using collapseWs.induct with
  | case1 => rw [collapseWs]; rfl
  | case2 c rest h ih =>
    rw [collapseWs, if_pos h]
    apply noDoubleSpace_cons _ _ ih
    intro b hb
    cases hr : rest.dropWhile pyIsSpace with
    | nil => rw [hr] at hb; simp [collapseWs] at hb
    | cons x xs =>
      rw [hr] at hb
      rw [collapseWs_head] at hb
      have hx : pyIsSpace x = false :=
        head?_dropWhile_false pyIsSpace rest x (by rw [hr]; rfl)
      rw [if_neg (by simp [hx])] at hb
      injection hb with hbe
      subst hbe
      simp [hx]
  | case3 c rest h ih =>
    rw [collapseWs, if_neg h]
    apply noDoubleSpace_cons _ _ ih
    intro b _
    have h' : pyIsSpace c = false := by simpa using h
    simp [h']

theorem collapseWs_getLast (l : List Char) (c : Char) (hc : pyIsSpace c = false) :
    l.getLast? = some c → (collapseWs l).getLast? = some c := by
  induction l using collapseWs.induct with
  | case1 => intro h; simp at h
  | case2 c0 rest hsp ih =>
    intro h
    rw [collapseWs, if_pos hsp]
    have hrne : rest ≠ [] := by
      intro hnil
      subst hnil
      simp at h
      subst h
      rw [hc] at hsp
      exact absurd hsp (by simp)
    have hlast : rest.getLast? = some c := by
      rw [← getLast?_cons_of_ne_nil c0 rest hrne]
      exact h
    have hdrop : (rest.dropWhile pyIsSpace).getLast? = some c :=
      getLast?_dropWhile _ _ _ hlast hc
    have hne : rest.dropWhile pyIsSpace ≠ [] := by
      intro hnil
      rw [hnil] at hdrop
      simp at hdrop
    rw [getLast?_cons_of_ne_nil _ _ (collapseWs_ne_nil _ hne)]
    exact ih hdrop
  | case3 c0 rest hsp ih =>
    intro h
    rw [collapseWs, if_neg hsp]
    by_cases hrne : rest = []
    · subst hrne
      simp at h
      subst h
      rw [collapseWs]
      rfl
    · have hlast : rest.getLast? = some c := by
        rw [← getLast?_cons_of_ne_nil c0 rest hrne]
        exact h
      rw [getLast?_cons_of_ne_nil _ _ (collapseWs_ne_nil _ hrne)]
      exact ih hlast

theorem collapseWs_space_blank (l : List Char) (c : Char)
    (hm : c ∈ collapseWs l) (hs : pyIsSpace c = true) : c = ' ' := by
  induction l using collapseWs.induct with
  | case1 => simp [collapseWs] at hm
  | case2 c0 rest h ih =>
    rw [collapseWs, if_pos h] at hm
    rcases List.mem_cons.mp hm with hc | hc
    · exact hc
    · exact ih hc
  | case3 c0 rest h ih =>
    rw [collapseWs, if_neg h] at hm
    rcases List.mem_cons.mp hm with hc | hc
    · subst hc; exact absurd hs h
    · exact ih hc

theorem dropWhile_eq_self_of_head (p : Char → Bool) (l : List Char)
    (h : ∀ b, l.head? = some b → p b = false) : l.dropWhile p = l := by
  cases l with
  | nil => rfl
  | cons a t =>
    rw [List.dropWhile_cons, if_neg]
    simp [h a rfl]

theorem collapseWs_id (l : List Char) (h1 : noDoubleSpace l = true)
    (h2 : ∀ c ∈ l, pyIsSpace c = true → c = ' ') : collapseWs l = l := by
  induction l using collapseWs.induct with
  | case1 => rw [collapseWs]
  | case2 c0 rest hsp ih =>
    rw [collapseWs, if_pos hsp]
    have hc0 : c0 = ' ' := h2 c0 (List.mem_cons_self _ _) hsp
    have hdrop : rest.dropWhile pyIsSpace = rest :=
      dropWhile_eq_self_of_head _ _ (noDoubleSpace_head c0 rest h1 hsp)
    rw [hdrop] at ih ⊢
    rw [ih (noDoubleSpace_tail _ _ h1) (fun c hc => h2 c (List.mem_cons_of_mem _ hc)), hc0]
  | case3 c0 rest hsp ih =>
    rw [collapseWs, if_neg hsp]
    rw [ih (noDoubleSpace_tail _ _ h1) (fun c hc => h2 c (List.mem_cons_of_mem _ hc))]

theorem stripTrail_id (l : List Char)
    (h : ∀ c, l.getLast? = some c → pyIsSpace c = false) : stripTrail l = l := by
  induction l with
  | nil => rfl
  | cons a t ih =>
    cases t with
    | nil => simp [stripTrail, h a rfl]
    | cons y ys =>
      have ht : stripTrail (y :: ys) = y :: ys :=
        ih fun c hc => h c (List.getLast?_cons_cons.trans hc)
      rw [stripTrail, ht]

theorem exists_getLast?_of_ne_nil (l : List Char) (h : l ≠ []) :
    ∃ c, l.getLast? = some c := by
  induction l with
  | nil => exact absurd rfl h
  | cons a t ih =>
    cases t with
    | nil => exact ⟨a, by simp⟩
    | cons b t2 =>
      obtain ⟨c, hc⟩ := ih (by simp)
      exact ⟨c, List.getLast?_cons_cons.trans hc⟩

theorem collapseWs_stripL_head (l : List Char) (b : Char)
    (h : (collapseWs (stripL l)).head? = some b) : pyIsSpace b = false := by
  cases hs : stripL l with
  | nil => rw [hs, collapseWs] at h; simp at h
  | cons c0 t =>
    rw [hs, collapseWs_head] at h
    have hc0 : pyIsSpace c0 = false := stripL_head l c0 (by rw [hs]; rfl)
    rw [if_neg (by simp [hc0])] at h
    injection h with hb
    subst hb
    exact hc0

theorem collapseWs_stripL_getLast (l : List Char) (b : Char)
    (h : (collapseWs (stripL l)).getLast? = some b) : pyIsSpace b = false := by
  by_cases hne : stripL l = []
  · rw [hne, collapseWs] at h; simp at h
  · obtain ⟨c, hc⟩ := exists_getLast?_of_ne_nil _ hne
    have hcs := stripL_getLast l c hc
    rw [collapseWs_getLast (stripL l) c hcs hc] at h
    injection h with hb
    subst hb
    exact hcs

theorem clean_text_ne_empty_eq (x : String) (hx : ¬ x = "") :
    clean_text x = String.mk (collapseWs (stripL x.toList)) := by
  unfold clean_text
  rw [if_neg hx]

theorem clean_text_toList (x : String) (hx : ¬ x = "") :
    (clean_text x).toList = collapseWs (stripL x.toList) := by
  rw [clean_text_ne_empty_eq x hx]
  rfl

/-! ## Claims -/

/-- C3: for every input string x, `clean_text` is idempotent, and its
result has no leading or trailing whitespace and no two consecutive
whitespace characters. -/
theorem c3_theorem (x : String) :
    clean_text (clean_text x) = clean_text x ∧
    noEdgeSpace (clean_text x).toList = true ∧
    noDoubleSpace (clean_text x).toList = true := by
  by_cases hx : x = ""
  · subst hx
    exact ⟨rfl, rfl, rfl⟩
  · have hlist := clean_text_toList x hx
    have hedge : noEdgeSpace (clean_text x).toList = true := by
      rw [hlist]
      unfold noEdgeSpace
      rw [Bool.and_eq_true]
      constructor
      · cases hh : (collapseWs (stripL x.toList)).head? with
        | none => rfl
        | some b => simp [collapseWs_stripL_head x.toList b hh]
      · cases hh : (collapseWs (stripL x.toList)).getLast? with
        | none => rfl
        | some b => simp [collapseWs_stripL_getLast x.toList b hh]
    have hdouble : noDoubleSpace (clean_text x).toList = true := by
      rw [hlist]
      exact collapseWs_chain _
    refine ⟨?_, hedge, hdouble⟩
    by_cases hs0 : clean_text x = ""
    · rw [hs0]
      rfl
    · rw [clean_text_ne_empty_eq (clean_text x) hs0, hlist]
      have hdw : (collapseWs (stripL x.toList)).dropWhile pyIsSpace
          = collapseWs (stripL x.toList) :=
        dropWhile_eq_self_of_head _ _ (fun b hb => collapseWs_stripL_head x.toList b hb)
      have hst : stripTrail (collapseWs (stripL x.toList)) = collapseWs (stripL x.toList) :=
        stripTrail_id _ (fun c hc => collapseWs_stripL_getLast x.toList c hc)
      have hstrip : stripL (collapseWs (stripL x.toList)) = collapseWs (stripL x.toList) := by
        show stripTrail ((collapseWs (stripL x.toList)).dropWhile pyIsSpace)
          = collapseWs (stripL x.toList)
        rw [hdw, hst]
      rw [hstrip, collapseWs_id _ (collapseWs_chain _)
        (fun c hm hs => collapseWs_space_blank _ c hm hs),
        clean_text_ne_empty_eq x hx]

/-- C4 counterexample: `is_empty_marker` accepts the empty string and a
whitespace-padded dash, neither of which is case-insensitively equal to a
configured marker, so it does not match exactly the configured set. -/
theorem c4_counterexample :
    is_empty_marker "" = true ∧
    (∀ m ∈ EMPTY_DATA_MARKERS, pyLower "" ≠ pyLower m) ∧
    is_empty_marker " -" = true ∧
    (∀ m ∈ EMPTY_DATA_MARKERS, pyLower " -" ≠ pyLower m) := by
  decide

/-- C4 (amended): `is_empty_marker t` is true exactly when `t` is empty
(falsy) or the lowered, stripped form of `t` is among the lowered
configured markers. -/
theorem c4_theorem (t : String) :
    is_empty_marker t = true ↔
      (t = "" ∨ pyLower (pyStrip t) ∈ EMPTY_DATA_MARKERS.map pyLower) := by
  by_cases h : t = ""
  · simp [is_empty_marker, h]
  · simp [is_empty_marker, h]

/-- C2: `extract_all_data` always yields exactly the eight keys, in order,
and an unmatched field is present with value None rather than omitted. -/
theorem c2_theorem (P : Patterns) (text : String) :
    (extract_all_data P text).map Prod.fst =
      ["cadastral_number", "address", "area", "owner", "permitted_use",
       "cadastral_cost", "land_category", "rental_data"] ∧
    (extract_cadastral_number P text = Option.none →
      dictGet (extract_all_data P text) "cadastral_number" = some PyVal.none) ∧
    (extract_address P text = Option.none →
      dictGet (extract_all_data P text) "address" = some PyVal.none) ∧
    (extract_area P text = Option.none →
      dictGet (extract_all_data P text) "area" = some PyVal.none) ∧
    (extract_owner P text = Option.none →
      dictGet (extract_all_data P text) "owner" = some PyVal.none) ∧
    (extract_permitted_use P text = Option.none →
      dictGet (extract_all_data P text) "permitted_use" = some PyVal.none) ∧
    (extract_cadastral_cost P text = Option.none →
      dictGet (extract_all_data P text) "cadastral_cost" = some PyVal.none) ∧
    (extract_land_category P text = Option.none →
      dictGet (extract_all_data P text) "land_category" = some PyVal.none) ∧
    (extract_rental_info P text = Option.none →
      dictGet (extract_all_data P text) "rental_data" = some PyVal.none) := by
  refine ⟨rfl, ?_, ?_, ?_, ?_, ?_, ?_, ?_, ?_⟩ <;> intro h <;> rw [show extract_all_data P text =
    [("cadastral_number", optVal (extract_cadastral_number P text)),
     ("address", optVal (extract_address P text)),
     ("area", optVal (extract_area P text)),
     ("owner", optVal (extract_owner P text)),
     ("permitted_use", optVal (extract_permitted_use P text)),
     ("cadastral_cost", optVal (extract_cadastral_cost P text)),
     ("land_category", optVal (extract_land_category P text)),
     ("rental_data", rentVal (extract_rental_info P text))] from rfl, h] <;> rfl

/-- C2 witness: on a table where nothing matches and empty input, all
eight keys are present with value None. -/
theorem c2_witness :
    (extract_all_data noMatchPatterns "").map Prod.fst =
      ["cadastral_number", "address", "area", "owner", "permitted_use",
       "cadastral_cost", "land_category", "rental_data"] ∧
    dictGet (extract_all_data noMatchPatterns "") "cadastral_number" = some PyVal.none ∧
    dictGet (extract_all_data noMatchPatterns "") "address" = some PyVal.none ∧
    dictGet (extract_all_data noMatchPatterns "") "area" = some PyVal.none ∧
    dictGet (extract_all_data noMatchPatterns "") "owner" = some PyVal.none ∧
    dictGet (extract_all_data noMatchPatterns "") "permitted_use" = some PyVal.none ∧
    dictGet (extract_all_data noMatchPatterns "") "cadastral_cost" = some PyVal.none ∧
    dictGet (extract_all_data noMatchPatterns "") "land_category" = some PyVal.none ∧
    dictGet (extract_all_data noMatchPatterns "") "rental_data" = some PyVal.none :=
  ⟨(c2_theorem noMatchPatterns "").1,
   (c2_theorem noMatchPatterns "").2.1 rfl,
   (c2_theorem noMatchPatterns "").2.2.1 rfl,
   (c2_theorem noMatchPatterns "").2.2.2.1 rfl,
   (c2_theorem noMatchPatterns "").2.2.2.2.1 rfl,
   (c2_theorem noMatchPatterns "").2.2.2.2.2.1 rfl,
   (c2_theorem noMatchPatterns "").2.2.2.2.2.2.1 rfl,
   (c2_theorem noMatchPatterns "").2.2.2.2.2.2.2.1 rfl,
   (c2_theorem noMatchPatterns "").2.2.2.2.2.2.2.2 rfl⟩

/-- C5: `extract_rental_info` returns None exactly when all three
sub-matches the body computes came up empty, and a returned structure is
never the empty dict. -/
theorem c5_theorem (P : Patterns) (text : String) :
    (extract_rental_info P text = Option.none ↔
      rentTypeRes P text = Option.none ∧ rentalPeriodRes P text = Option.none ∧
        tenantRes P text = Option.none) ∧
    (∀ d, extract_rental_info P text = some d → d ≠ []) := by
  by_cases ht : text = ""
  · simp [extract_rental_info, rentTypeRes, rentalPeriodRes, tenantRes, ht]
  · unfold extract_rental_info rentTypeRes rentalPeriodRes tenantRes
    rw [if_neg ht, if_neg ht, if_neg ht, if_neg ht]
    cases h1 : P.rent_type text <;> cases h2 : P.rental_period text <;>
      cases h3 : P.tenant text <;> simp [dictSet]

/-- C5 witness: with only the rent_type rule matching, the structure comes
back non-empty. -/
theorem c5_witness :
    extract_rental_info rentOnlyPatterns "x" = some [("rent_type", "Аренда")] ∧
    [("rent_type", "Аренда")] ≠ ([] : List (String × String)) := by
  have heval : extract_rental_info rentOnlyPatterns "x"
      = some [("rent_type", "Аренда")] := by
    simp [extract_rental_info, rentOnlyPatterns, noMatchPatterns, dictSet,
      clean_text, stripL, stripTrail, collapseWs, pyIsSpace]
  exact ⟨heval, (c5_theorem rentOnlyPatterns "x").2 [("rent_type", "Аренда")] heval⟩

/-- C10: in any structure `extract_rental_info` returns, the key
period_start is present exactly when period_end is: both are assigned
together from the two capture groups of the single rental_period match. -/
theorem c10_theorem (P : Patterns) (text : String) (d : List (String × String))
    (h : extract_rental_info P text = some d) :
    (dictGet d "period_start").isSome = (dictGet d "period_end").isSome := by
  by_cases ht : text = ""
  · unfold extract_rental_info at h
    rw [if_pos ht] at h
    exact absurd h (by simp)
  · unfold extract_rental_info at h
    rw [if_neg ht] at h
    cases h1 : P.rent_type text <;> cases h2 : P.rental_period text <;>
      cases h3 : P.tenant text <;> simp only [h1, h2, h3] at h <;>
      simp [dictSet] at h <;> subst h <;> rfl

/-- C10 witness: with only the two-date period rule matching, both period
keys are present. -/
theorem c10_witness :
    extract_rental_info periodOnlyPatterns "x"
      = some [("period_start", "02.09.2025"), ("period_end", "31.12.2040")] ∧
    (dictGet [("period_start", "02.09.2025"), ("period_end", "31.12.2040")]
        "period_start").isSome
      = (dictGet [("period_start", "02.09.2025"), ("period_end", "31.12.2040")]
        "period_end").isSome :=
  ⟨rfl, c10_theorem periodOnlyPatterns "x" _ rfl⟩

/-- C6 counterexample: with the cadastral_number rule absent from the
registry, a field-extraction call on non-empty text is a runtime error
(`re.search` receives the None that `REGEX_PATTERNS.get` produced and
raises TypeError); nothing detects the missing rule at startup. -/
theorem c6_counterexample :
    extract_cadastral_number_reg (fun _ _ => Option.none) [] "74:36:0303005:454"
      = Except.error PyExc.typeError := rfl

/-- C6 (amended): a missing registry rule is not a startup-validation
failure but a runtime condition: every extraction call on non-empty text
with the rule absent raises TypeError, while empty text returns None
before the registry is consulted. -/
theorem c6_theorem (engine : String → String → Option String)
    (registry : List (String × String)) (text : String)
    (hmiss : dictGet registry "cadastral_number" = Option.none)
    (htext : text ≠ "") :
    extract_cadastral_number_reg engine registry text
      = Except.error PyExc.typeError ∧
    extract_cadastral_number_reg engine registry "" = Except.ok Option.none := by
  constructor
  · unfold extract_cadastral_number_reg
    rw [if_neg htext, hmiss]
    rfl
  · rfl

/-- C6 witness: concrete empty registry and concrete non-empty text. -/
theorem c6_witness :
    dictGet ([] : List (String × String)) "cadastral_number" = Option.none ∧
    ("74:36:0303005:454" : String) ≠ "" ∧
    (extract_cadastral_number_reg (fun _ _ => Option.none) [] "74:36:0303005:454"
        = Except.error PyExc.typeError ∧
      extract_cadastral_number_reg (fun _ _ => Option.none) [] ""
        = Except.ok Option.none) :=
  ⟨rfl, by decide, c6_theorem (fun _ _ => Option.none) [] "74:36:0303005:454" rfl (by decide)⟩

/-- A falsy `Optional[str]` strips to length 0. -/
theorem pyLenStripO_of_not_truthy (t : Option String)
    (h : ¬ pyTruthyO t = true) : pyLenStripO t = 0 := by
  cases t with
  | none => rfl
  | some s =>
    have hs : s = "" := by
      by_contra hne
      exact h (by simp [pyTruthyO, hne])
    subst hs
    rfl

/-- The strategies the OCR stage reports as attempted. -/
theorem ocrStage_attempted (f : PdfFile) (try_ocr : Bool) (text : Option String)
    (att : List Strat) :
    (ocrStage f try_ocr text att).attempted =
      if try_ocr ∧ (¬ pyTruthyO text ∨ pyLenStripO text < 50)
      then att ++ [Strat.ocr] else att := by
  unfold ocrStage finalReturn
  by_cases h : (try_ocr = true) ∧ (¬ pyTruthyO text = true ∨ pyLenStripO text < 50)
  · rw [if_pos h, if_pos h]
    dsimp only
    split
    · rfl
    · split <;> rfl
  · rw [if_neg h, if_neg h]
    split <;> rfl

/-- C1 counterexample: a document whose structured reader yields 30
non-whitespace characters — under the 50-char quality threshold — is
returned as that partial string with OCR disabled, not as null. -/
theorem c1_counterexample :
    pyLenStripO (extract_text_with_table_detection pdf30.plumberPages) < 50 ∧
    extract_text_from_pdf PdfLib.plumber 50 pdf30 false
      = ⟨POut.ok (some "abcdefghijklmnopqrstuvwxyz0123"), [Strat.structured]⟩ := by
  constructor
  · decide
  · decide

/-- C1 (amended): with OCR disabled and the structured strategy under the
50-char threshold, `extract_text_from_pdf` returns the partial
under-threshold text whenever it is truthy with stripped length at least
5, and null only below that lower floor. -/
theorem c1_theorem (cap : Nat) (f : PdfFile)
    (hv : validate_pdf_file cap f = true)
    (hlow : pyLenStripO (extract_text_with_table_detection f.plumberPages) < 50) :
    extract_text_from_pdf PdfLib.plumber cap f false =
      ⟨POut.ok
        (if pyTruthyO (extract_text_with_table_detection f.plumberPages) ∧
            5 ≤ pyLenStripO (extract_text_with_table_detection f.plumberPages)
          then extract_text_with_table_detection f.plumberPages
          else Option.none),
       [Strat.structured]⟩ := by
  have hn50 : ¬ (50 < pyLenStripO (extract_text_with_table_detection f.plumberPages)) := by
    omega
  by_cases htru : pyTruthyO (extract_text_with_table_detection f.plumberPages) = true
  · by_cases h5 : pyLenStripO (extract_text_with_table_detection f.plumberPages) < 5
    · have h5' : ¬ (5 ≤ pyLenStripO (extract_text_with_table_detection f.plumberPages)) := by
        omega
      simp [extract_text_from_pdf, ocrStage, finalReturn, hv, hn50, htru, h5, h5']
    · have h5' : 5 ≤ pyLenStripO (extract_text_with_table_detection f.plumberPages) := by
        omega
      simp [extract_text_from_pdf, ocrStage, finalReturn, hv, hn50, htru, h5, h5']
  · have h0 : pyLenStripO (extract_text_with_table_detection f.plumberPages) = 0 :=
      pyLenStripO_of_not_truthy _ htru
    simp [extract_text_from_pdf, ocrStage, finalReturn, hv, hn50, htru, h0]

/-- C1 witness: the concrete 30-character document instantiates the
amended claim. -/
theorem c1_witness :
    validate_pdf_file 50 pdf30 = true ∧
    pyLenStripO (extract_text_with_table_detection pdf30.plumberPages) < 50 ∧
    extract_text_from_pdf PdfLib.plumber 50 pdf30 false =
      ⟨POut.ok
        (if pyTruthyO (extract_text_with_table_detection pdf30.plumberPages) ∧
            5 ≤ pyLenStripO (extract_text_with_table_detection pdf30.plumberPages)
          then extract_text_with_table_detection pdf30.plumberPages
          else Option.none),
       [Strat.structured]⟩ :=
  ⟨by decide, by decide, c1_theorem 50 pdf30 (by decide) (by decide)⟩

/-- C8: with the structured reader selected, OCR is never attempted once
the structured text reaches 50 stripped characters, whatever the try_ocr
flag; and whenever OCR is attempted, the caller opted in and the
structured text was under the threshold. -/
theorem c8_theorem (cap : Nat) (f : PdfFile) (try_ocr : Bool) :
    (50 ≤ pyLenStripO (extract_text_with_table_detection f.plumberPages) →
      Strat.ocr ∉ (extract_text_from_pdf PdfLib.plumber cap f try_ocr).attempted) ∧
    (Strat.ocr ∈ (extract_text_from_pdf PdfLib.plumber cap f try_ocr).attempted →
      try_ocr = true ∧
        pyLenStripO (extract_text_with_table_detection f.plumberPages) < 50) := by
  by_cases hv : validate_pdf_file cap f = false
  · simp [extract_text_from_pdf, hv]
  · by_cases hearly : pyTruthyO (extract_text_with_table_detection f.plumberPages) = true ∧
        50 < pyLenStripO (extract_text_with_table_detection f.plumberPages)
    · constructor
      · intro _
        simp [extract_text_from_pdf, hv, hearly]
      · intro hmem
        simp [extract_text_from_pdf, hv, hearly] at hmem
    · have hatt : (extract_text_from_pdf PdfLib.plumber cap f try_ocr).attempted =
          if try_ocr ∧ (¬ pyTruthyO (extract_text_with_table_detection f.plumberPages) ∨
              pyLenStripO (extract_text_with_table_detection f.plumberPages) < 50)
          then [Strat.structured, Strat.ocr] else [Strat.structured] := by
        simp [extract_text_from_pdf, hv, hearly, ocrStage_attempted]
      rw [hatt]
      constructor
      · intro h50
        rw [if_neg]
        · simp
        · rintro ⟨-, hc⟩
          rcases hc with hnt | hlt
          · have h0 := pyLenStripO_of_not_truthy _ hnt
            omega
          · omega
      · intro hmem
        by_cases hcond : try_ocr = true ∧
            (¬ pyTruthyO (extract_text_with_table_detection f.plumberPages) = true ∨
              pyLenStripO (extract_text_with_table_detection f.plumberPages) < 50)
        · refine ⟨hcond.1, ?_⟩
          rcases hcond.2 with hnt | hlt
          · have h0 := pyLenStripO_of_not_truthy _ hnt
            omega
          · exact hlt
        · rw [if_neg hcond] at hmem
          simp at hmem

/-- C8 witness: the 60-character document never reaches OCR even with
try_ocr enabled. -/
theorem c8_witness :
    50 ≤ pyLenStripO (extract_text_with_table_detection pdf60.plumberPages) ∧
    Strat.ocr ∉ (extract_text_from_pdf PdfLib.plumber 50 pdf60 true).attempted :=
  ⟨by decide, (c8_theorem 50 pdf60 true).1 (by decide)⟩

/-- C9: an existing zero-byte `.pdf` passes pre-flight validation, the
pypdf read raises, and the function then raises NameError at `not text`
(the local `text` was never assigned) — it does not return null. -/
theorem c9_theorem :
    extract_text_from_pdf PdfLib.pypdf 50 pdfZeroByte false
      = ⟨POut.nameError, [Strat.plain]⟩ := by
  decide

/-- C7 counterexample: two records that differ only in a non-null
cadastral cost produce identical rows — the cost (like the land category)
is written to no column, so no decoding can reproduce it. -/
theorem c7_counterexample :
    create_row_from_extracted_data recordFull "f.pdf" 1
      = create_row_from_extracted_data recordNoCost "f.pdf" 1 ∧
    pyGetV recordFull "cadastral_cost" ≠ pyGetV recordNoCost "cadastral_cost" := by
  constructor
  · decide
  · decide

/-- C7 (amended): the row reproduces, byte-identically, every non-null
value of the five mapped fields (cadastral number, address, area, owner,
permitted use) from their dedicated columns, and the rental tenant from
its column; cadastral_cost and land_category are dropped. -/
theorem c7_theorem (data : List (String × PyVal)) (fn : String) (n : Int) :
    (∀ s, pyGetV data "cadastral_number" = PyVal.str s →
      pyGetV (create_row_from_extracted_data data fn n) "Кадастр. номер ЗУ"
        = PyVal.str s) ∧
    (∀ s, pyGetV data "address" = PyVal.str s →
      pyGetV (create_row_from_extracted_data data fn n) "Адрес, комплекс"
        = PyVal.str s) ∧
    (∀ s, pyGetV data "area" = PyVal.str s →
      pyGetV (create_row_from_extracted_data data fn n) "Площадь (м²)"
        = PyVal.str s) ∧
    (∀ s, pyGetV data "owner" = PyVal.str s →
      pyGetV (create_row_from_extracted_data data fn n) "Собственник"
        = PyVal.str s) ∧
    (∀ s, pyGetV data "permitted_use" = PyVal.str s →
      pyGetV (create_row_from_extracted_data data fn n) "Предполагаемое назначение"
        = PyVal.str s) ∧
    (∀ d s, pyGetV data "rental_data" = PyVal.dict d →
      dictGet d "tenant" = some s →
      pyGetV (create_row_from_extracted_data data fn n) "Арендатор"
        = PyVal.str s) := by
  refine ⟨?_, ?_, ?_, ?_, ?_, ?_⟩
  · intro s h
    have hbase : pyGetV (EXCEL_COLUMNS.map fun c => (c, PyVal.str ""))
        "Кадастр. номер ЗУ" = PyVal.str "" := rfl
    by_cases hs : s = "" <;>
      simp [create_row_from_extracted_data, pyGetV_ite, pyGetV_dictSet, hbase, h,
        pyTruthyV, hs]
  · intro s h
    have hbase : pyGetV (EXCEL_COLUMNS.map fun c => (c, PyVal.str ""))
        "Адрес, комплекс" = PyVal.str "" := rfl
    by_cases hs : s = "" <;>
      simp [create_row_from_extracted_data, pyGetV_ite, pyGetV_dictSet, hbase, h,
        pyTruthyV, hs]
  · intro s h
    have hbase : pyGetV (EXCEL_COLUMNS.map fun c => (c, PyVal.str ""))
        "Площадь (м²)" = PyVal.str "" := rfl
    by_cases hs : s = "" <;>
      simp [create_row_from_extracted_data, pyGetV_ite, pyGetV_dictSet, hbase, h,
        pyTruthyV, hs]
  · intro s h
    have hbase : pyGetV (EXCEL_COLUMNS.map fun c => (c, PyVal.str ""))
        "Собственник" = PyVal.str "" := rfl
    by_cases hs : s = "" <;>
      simp [create_row_from_extracted_data, pyGetV_ite, pyGetV_dictSet, hbase, h,
        pyTruthyV, hs]
  · intro s h
    have hbase : pyGetV (EXCEL_COLUMNS.map fun c => (c, PyVal.str ""))
        "Предполагаемое назначение" = PyVal.str "" := rfl
    by_cases hs : s = "" <;>
      simp [create_row_from_extracted_data, pyGetV_ite, pyGetV_dictSet, hbase, h,
        pyTruthyV, hs]
  · intro d s h1 h2
    have hbase : pyGetV (EXCEL_COLUMNS.map fun c => (c, PyVal.str ""))
        "Арендатор" = PyVal.str "" := rfl
    by_cases hd : d = []
    · subst hd
      simp [dictGet] at h2
    · by_cases hs : s = "" <;>
        simp [create_row_from_extracted_data, pyGetV_ite, pyGetV_dictSet, hbase,
          h1, h2, pyValGetS, pyTruthyS, pyTruthyV, hd, hs]

/-- C7 witness: the fully populated record round-trips each mapped field
through its column. -/
theorem c7_witness :
    pyGetV recordFull "cadastral_number" = PyVal.str "74:36:0303005:454" ∧
    pyGetV (create_row_from_extracted_data recordFull "f.pdf" 1)
      "Кадастр. номер ЗУ" = PyVal.str "74:36:0303005:454" ∧
    pyGetV (create_row_from_extracted_data recordFull "f.pdf" 1)
      "Адрес, комплекс" = PyVal.str "Челябинская область, г. Челябинск" ∧
    pyGetV (create_row_from_extracted_data recordFull "f.pdf" 1)
      "Площадь (м²)" = PyVal.str "13351 +/-40" ∧
    pyGetV (create_row_from_extracted_data recordFull "f.pdf" 1)
      "Собственник" = PyVal.str "Левин Дмитрий Олегович" ∧
    pyGetV (create_row_from_extracted_data recordFull "f.pdf" 1)
      "Предполагаемое назначение" = PyVal.str "производственная деятельность" ∧
    pyGetV (create_row_from_extracted_data recordFull "f.pdf" 1)
      "Арендатор" = PyVal.str "УК ТЕХНОПАРК ЛД" :=
  ⟨rfl,
   (c7_theorem recordFull "f.pdf" 1).1 _ rfl,
   (c7_theorem recordFull "f.pdf" 1).2.1 _ rfl,
   (c7_theorem recordFull "f.pdf" 1).2.2.1 _ rfl,
   (c7_theorem recordFull "f.pdf" 1).2.2.2.1 _ rfl,
   (c7_theorem recordFull "f.pdf" 1).2.2.2.2.1 _ rfl,
   (c7_theorem recordFull "f.pdf" 1).2.2.2.2.2 _ _ rfl rfl⟩
